import Mathlib

/-!
Shallow embedding of the snapgram client (a social-media web client over a
Backend-as-a-Service SDK) and verification of its specification claims.

The embedding follows the source files:
  - components/shared/PostStats.tsx  (like toggle, save toggle)
  - context/AuthProvider.tsx         (checkAuthUser, mount effect)
  - layouts/auth/AuthLayout.tsx, layouts/root/RootLayout.tsx (routing shell)
  - lib/appwrite/backend.ts          (remote service facade)

Remote SDK calls are modelled by passing their outcomes as explicit inputs:
a call that can reject is an Except value (error = rejected promise), a call
whose resolved value can be falsy carries an Option inside, and a function
that can itself reject versus return undefined versus return a value has a
dedicated result type. JavaScript null and undefined are kept distinct where
the code distinguishes them.
-/

namespace Snapgram

/-! ## Like toggle (PostStats.tsx, handleLikePost)

The likesArray computation: copy the current likes, then
if likesArray.includes(userId) filter out every occurrence of userId,
else push userId at the end. -/

/-- The likesArray computation of handleLikePost: membership test via
includes, removal via filter of every equal id, addition via push. -/
def likeToggle (likes : List String) (userId : String) : List String :=
  if likes.contains userId then
    likes.filter (fun id => id ≠ userId)
  else
    likes ++ [userId]

/-- likeToggle applied n times in succession (each click reuses the state
written by the previous one). -/
def likeToggleIter (userId : String) : Nat → List String → List String
  | 0, l => l
  | n + 1, l => likeToggleIter userId n (likeToggle l userId)

/-! ## Save toggle (PostStats.tsx, savedPostRecord and handleSavePost) -/

/-- A record of the saves collection as seen through the current-user query:
its own document id and the embedded post reference id (record.post.id). -/
structure SavedRecord where
  id : String
  postId : String
deriving DecidableEq, Repr

/-- The remote mutation a save toggle fires. -/
inductive SaveAction where
  | deleteSaved (recordId : String)
  | create (userId postId : String)
deriving DecidableEq, Repr

/-- The savedPostRecord lookup: first record of the current user whose
embedded post id equals this post's id, undefined (none) otherwise. -/
def savedPostRecordLookup (saveList : List SavedRecord) (postId : String) :
    Option SavedRecord :=
  saveList.find? (fun record => record.postId = postId)

/-- handleSavePost: if a matching saved record exists, set the flag false and
delete by the record's id; else create a save record and set the flag true.
Returns the flag value written by setIsSaved and the remote call issued. -/
def handleSavePost (savedPostRecord : Option SavedRecord)
    (userId postId : String) : Bool × SaveAction :=
  match savedPostRecord with
  | some r => (false, SaveAction.deleteSaved r.id)
  | none => (true, SaveAction.create userId postId)

/-- The isSaved flag after a number of handleSavePost calls that all observe
the same (possibly stale) savedPostRecord: each call overwrites the flag with
the value its branch writes. -/
def runSaveToggles (savedPostRecord : Option SavedRecord)
    (userId postId : String) : Nat → Bool → Bool
  | 0, init => init
  | _ + 1, _ => (handleSavePost savedPostRecord userId postId).1

/-- What the specification asks of a true toggle: the flag after n toggles is
the initial flag flipped once per toggle, i.e. the parity of the call count
applied to the initial state. -/
def toggleParity (init : Bool) (n : Nat) : Bool :=
  xor init (decide (n % 2 = 1))

/-! ## Session state (AuthProvider.tsx) -/

/-- The user object held by the context (INITIAL_USER shape): six string
fields. -/
structure IUser where
  id : String
  name : String
  username : String
  email : String
  imageUrl : String
  bio : String
deriving DecidableEq, Repr

/-- The provider's state: user, isAuthenticated, isLoading. -/
structure AuthState where
  user : IUser
  isAuthenticated : Bool
  isLoading : Bool
deriving DecidableEq, Repr

/-- setIsLoading state setter. -/
def setIsLoading (s : AuthState) (b : Bool) : AuthState :=
  { s with isLoading := b }

/-- setUser state setter. -/
def setUser (s : AuthState) (u : IUser) : AuthState :=
  { s with user := u }

/-- setIsAuthenticated state setter. -/
def setIsAuthenticated (s : AuthState) (b : Bool) : AuthState :=
  { s with isAuthenticated := b }

/-- An account object returned by the auth service (account.get). -/
structure Account where
  id : String
deriving DecidableEq, Repr

/-- A user document of the users collection. -/
structure UserDoc where
  id : String
  accountId : String
  name : String
  username : String
  email : String
  imageUrl : String
  bio : String
deriving DecidableEq, Repr

/-- The value getCurrentUser hands to its caller. The code distinguishes
null (its catch branch returns null) from undefined (indexing an empty
documents array with [0] yields undefined). -/
inductive GetCurrentUserResult where
  | nullR
  | undefinedR
  | doc (d : UserDoc)
deriving DecidableEq, Repr

/-- getCurrentUser (backend.ts): fetch the account via getAccount (which
itself swallows failures and yields undefined, modelled as the none input);
a missing account throws into the catch branch, which returns null. A
rejected listDocuments call is likewise caught and null is returned. On
success the function returns documents[0]: undefined when the query matched
no documents. (The source's check if not currentUser examines the
listDocuments promise object, which is always truthy, so it never fires and
is not modelled as a branch.) -/
def getCurrentUser (accountRes : Option Account)
    (listRes : Except Unit (List UserDoc)) : GetCurrentUserResult :=
  match accountRes with
  | none => GetCurrentUserResult.nullR
  | some _ =>
    match listRes with
    | Except.error _ => GetCurrentUserResult.nullR
    | Except.ok docs =>
      match docs.head? with
      | none => GetCurrentUserResult.undefinedR
      | some d => GetCurrentUserResult.doc d

/-- The context user built from a user document in checkAuthUser. -/
def userFromDoc (d : UserDoc) : IUser :=
  { id := d.id, name := d.name, username := d.username, email := d.email,
    imageUrl := d.imageUrl, bio := d.bio }

/-- checkAuthUser (AuthProvider.tsx) as symbolic execution over the setter
calls: setIsLoading true on entry; when getCurrentUser yields a document,
setUser with its six fields, setIsAuthenticated true and return true; when
it yields null or undefined (both falsy) return false; the finally block
runs setIsLoading false on every path. The result is the returned boolean
together with the list of states written by the setter calls, in order.
(getCurrentUser never rejects, so the catch branch of checkAuthUser is
unreachable.) -/
def checkAuthUser (res : GetCurrentUserResult) (s : AuthState) :
    Bool × List AuthState :=
  let s1 := setIsLoading s true
  match res with
  | GetCurrentUserResult.doc d =>
    let s2 := setUser s1 (userFromDoc d)
    let s3 := setIsAuthenticated s2 true
    let s4 := setIsLoading s3 false
    (true, [s1, s2, s3, s4])
  | GetCurrentUserResult.nullR =>
    let s2 := setIsLoading s1 false
    (false, [s1, s2])
  | GetCurrentUserResult.undefinedR =>
    let s2 := setIsLoading s1 false
    (false, [s1, s2])

/-- The state the provider is left in after checkAuthUser: the last state
written by a setter, or the initial state if none was written. -/
def checkAuthUserFinal (res : GetCurrentUserResult) (s : AuthState) :
    AuthState :=
  (checkAuthUser res s).2.getLastD s

/-! ## Provider mount effect (AuthProvider.tsx, useEffect) -/

/-- The observable effects of the mount callback. -/
inductive MountEffect where
  | navigate (path : String)
  | callCheckAuthUser
deriving DecidableEq, Repr

/-- The mount effect: read the cookieFallback localStorage entry (a string
or null; the strict comparison with undefined can never hold for a
localStorage read and adds no case); when it is the empty-list marker or
absent, navigate to the sign-in route; in every case call checkAuthUser. -/
def authProviderMount (cookieFallback : Option String) : List MountEffect :=
  if cookieFallback = some "[]" ∨ cookieFallback = none then
    [MountEffect.navigate "/sign-in", MountEffect.callCheckAuthUser]
  else
    [MountEffect.callCheckAuthUser]

/-! ## Routing shell (AuthLayout.tsx, RootLayout.tsx) -/

/-- What a layout renders. -/
inductive RenderedView where
  | navigateTo (path : String)
  | authOutlet
  | rootOutlet
deriving DecidableEq, Repr

/-- AuthLayout: declares a local constant isAuthenticated = false (it does
not read the session store, whose value is the parameter here) and renders
a Navigate to the home route when that constant holds, the sign-in/sign-up
outlet otherwise. -/
def AuthLayout (_storeIsAuthenticated : Bool) : RenderedView :=
  let isAuthenticated := false
  if isAuthenticated then RenderedView.navigateTo "/" else RenderedView.authOutlet

/-- RootLayout: renders the navigation bars and the outlet unconditionally;
it performs no check against the session store (the parameter). -/
def RootLayout (_storeIsAuthenticated : Bool) : RenderedView :=
  RenderedView.rootOutlet

/-! ## Remote service facade (backend.ts)

Each facade function is embedded with the outcomes of its SDK calls as
inputs: Except.error models a rejected awaited promise, and an Option
inside the ok value models a resolved value that is falsy. -/

/-- JavaScript falsiness of an optional string id parameter: undefined and
the empty string are falsy. -/
def jsFalsyStr : Option String → Bool
  | none => true
  | some s => decide (s = "")

/-- How a facade call ends at its caller: an exception escapes, undefined is
returned, or a value is returned. -/
inductive FacadeResult (α : Type) where
  | thrown
  | undefinedR
  | value (a : α)
deriving DecidableEq, Repr

/-- The result signUpAccount hands back: the caught error object itself
(return error in the catch branch) or the new user document. -/
inductive SignUpResult where
  | errorValue
  | value (u : UserDoc)
deriving DecidableEq, Repr

/-- signUpAccount: account.create rejection is caught and the error object
is returned as the result; otherwise saveUserToDB's createDocument promise
is awaited, whose rejection is likewise caught and returned as the error
object; on success the new user document is returned. (The check if not
newAccount guards a resolved account object, which is truthy, and its throw
would land in the same catch branch.) -/
def signUpAccount (accountRes : Except Unit Account)
    (saveRes : Except Unit UserDoc) : SignUpResult :=
  match accountRes with
  | Except.error _ => SignUpResult.errorValue
  | Except.ok _ =>
    match saveRes with
    | Except.error _ => SignUpResult.errorValue
    | Except.ok u => SignUpResult.value u

/-- A post document. -/
structure PostDoc where
  id : String
deriving DecidableEq, Repr

/-- getPostById: a falsy postId throws before the try block, so the
exception escapes to the caller; inside the try, a rejected or falsy
getDocument result is caught (or thrown into the catch) and undefined is
returned. -/
def getPostById (postId : Option String)
    (getRes : Except Unit (Option PostDoc)) : FacadeResult PostDoc :=
  if jsFalsyStr postId then FacadeResult.thrown
  else
    match getRes with
    | Except.error _ => FacadeResult.undefinedR
    | Except.ok none => FacadeResult.undefinedR
    | Except.ok (some p) => FacadeResult.value p

/-- A stored file document. -/
structure FileDoc where
  id : String
deriving DecidableEq, Repr

/-- createPost, with the outcomes of its three sequential remote steps as
inputs; the second component of the result lists the file ids deleteFile
was invoked on (the compensating cleanup). Upload failure (uploadFile
swallows its own error and yields undefined) throws into the catch branch:
undefined, no cleanup. A falsy preview URL triggers deleteFile on the
uploaded file and then throws: undefined. A rejected createDocument promise
jumps to the catch branch directly, without cleanup; a falsy resolved
document triggers deleteFile and then throws. -/
def createPost (uploadRes : Option FileDoc) (previewRes : Option String)
    (createRes : Except Unit (Option PostDoc)) :
    Option PostDoc × List String :=
  match uploadRes with
  | none => (none, [])
  | some f =>
    match previewRes with
    | none => (none, [f.id])
    | some _ =>
      match createRes with
      | Except.error _ => (none, [])
      | Except.ok none => (none, [f.id])
      | Except.ok (some p) => (some p, [])

/-- A remote call made by deletePost, in issue order. -/
inductive RemoteCall where
  | deleteDocumentReq (docId : String)
  | deleteFileReq (fileId : String)
deriving DecidableEq, Repr

/-- deletePost: when postId or imageId is falsy, return undefined at once
with no remote call; otherwise delete the post document, and only when that
resolves truthily delete the file and return the Ok status; a rejected or
falsy deleteDocument leaves the function in the catch branch with only the
document deletion attempted. -/
def deletePost (postId imageId : Option String)
    (deleteDocRes : Except Unit Bool) : Option String × List RemoteCall :=
  match postId, imageId with
  | some p, some i =>
    if p = "" ∨ i = "" then (none, [])
    else
      match deleteDocRes with
      | Except.error _ => (none, [RemoteCall.deleteDocumentReq p])
      | Except.ok false => (none, [RemoteCall.deleteDocumentReq p])
      | Except.ok true =>
        (some "Ok", [RemoteCall.deleteDocumentReq p, RemoteCall.deleteFileReq i])
  | _, _ => (none, [])

/-- A query term handed to listDocuments. -/
inductive Query where
  | orderDesc (field : String)
  | orderAsc (field : String)
  | limit (n : Nat)
  | cursorAfter (cursor : String)
  | equal (field value : String)
  | search (field term : String)
deriving DecidableEq, Repr

/-- The result object of a listDocuments call. -/
structure PostList where
  documents : List PostDoc
deriving DecidableEq, Repr

/-- The query list getInfinitePosts builds: order by updatedAt descending
and limit 9, and when pageParam is truthy (a number: undefined and 0 are
falsy) push a cursorAfter term with the stringified pageParam. -/
def getInfinitePostsQueries (pageParam : Option Nat) : List Query :=
  let queries : List Query := [Query.orderDesc "$updatedAt", Query.limit 9]
  match pageParam with
  | some n => if n = 0 then queries else queries ++ [Query.cursorAfter (toString n)]
  | none => queries

/-- getInfinitePosts: the query list it sends, paired with the value it
returns (a rejected or falsy listDocuments outcome is caught and undefined
is returned). -/
def getInfinitePosts (pageParam : Option Nat)
    (listRes : Except Unit (Option PostList)) : List Query × Option PostList :=
  (getInfinitePostsQueries pageParam,
    match listRes with
    | Except.error _ => none
    | Except.ok none => none
    | Except.ok (some l) => some l)

/-- likePost: a rejected or falsy updateDocument outcome is caught and
undefined is returned; otherwise the updated post document. -/
def likePost (updateRes : Except Unit (Option PostDoc)) : Option PostDoc :=
  match updateRes with
  | Except.error _ => none
  | Except.ok none => none
  | Except.ok (some p) => some p

/-- A save record document. -/
structure SaveDoc where
  id : String
deriving DecidableEq, Repr

/-- savePost: a rejected or falsy createDocument outcome is caught and
undefined is returned; otherwise the created save document. -/
def savePost (createRes : Except Unit (Option SaveDoc)) : Option SaveDoc :=
  match createRes with
  | Except.error _ => none
  | Except.ok none => none
  | Except.ok (some d) => some d

/-- deleteSavedPost: a rejected or falsy deleteDocument outcome is caught
and undefined is returned; otherwise the Ok status object. -/
def deleteSavedPost (deleteRes : Except Unit Bool) : Option String :=
  match deleteRes with
  | Except.error _ => none
  | Except.ok false => none
  | Except.ok true => some "Ok"

/-- A sample provider state used by witnesses. -/
def sampleState : AuthState :=
  { user := { id := "", name := "", username := "", email := "",
              imageUrl := "", bio := "" },
    isAuthenticated := false, isLoading := false }

/-- A sample user document used by witnesses. -/
def sampleDoc : UserDoc :=
  { id := "u1", accountId := "a1", name := "Nora", username := "nora",
    email := "nora@mail", imageUrl := "img", bio := "hi" }

end Snapgram

namespace Snapgram

/-! ## Theorems: like toggle (C1) -/

theorem likeToggle_of_mem {l : List String} {u : String} (h : u ∈ l) :
    likeToggle l u = l.filter (fun id => id ≠ u) := by
  simp [likeToggle, h]

theorem likeToggle_of_not_mem {l : List String} {u : String} (h : u ∉ l) :
    likeToggle l u = l ++ [u] := by
  simp [likeToggle, h]

theorem likeToggle_count_le_one (l : List String) (u : String) :
    (likeToggle l u).count u ≤ 1 := by
  by_cases h : u ∈ l
  · rw [likeToggle_of_mem h]
    have h0 : (l.filter (fun id => id ≠ u)).count u = 0 := by
      simp [List.count_eq_zero]
    omega
  · rw [likeToggle_of_not_mem h]
    have h0 : l.count u = 0 := List.count_eq_zero.mpr h
    simp [h0]

theorem likeToggleIter_count_le_one (u : String) :
    ∀ (n : Nat) (l : List String), (likeToggleIter u (n + 1) l).count u ≤ 1 := by
  intro n
  induction n with
  | zero =>
    intro l
    simpa [likeToggleIter] using likeToggle_count_le_one l u
  | succ m ih =>
    intro l
    exact ih (likeToggle l u)

theorem likeToggle_twice_mem (l : List String) (u x : String) :
    x ∈ likeToggle (likeToggle l u) u ↔ x ∈ l := by
  by_cases h : u ∈ l
  · have h1 : likeToggle l u = l.filter (fun id => id ≠ u) :=
      likeToggle_of_mem h
    have h2 : u ∉ likeToggle l u := by rw [h1]; simp
    rw [likeToggle_of_not_mem h2, h1]
    simp only [List.mem_append, List.mem_filter, List.mem_singleton,
      decide_eq_true_eq]
    constructor
    · rintro (⟨hx, _⟩ | rfl)
      · exact hx
      · exact h
    · intro hx
      by_cases hxu : x = u
      · exact Or.inr hxu
      · exact Or.inl ⟨hx, hxu⟩
  · have h1 : likeToggle l u = l ++ [u] := likeToggle_of_not_mem h
    have h2 : u ∈ likeToggle l u := by rw [h1]; simp
    rw [likeToggle_of_mem h2, h1, List.filter_append]
    have h3 : l.filter (fun id => id ≠ u) = l := by
      rw [List.filter_eq_self]
      intro a ha
      simp only [decide_eq_true_eq]
      exact fun e => h (e ▸ ha)
    have h4 : List.filter (fun id => decide (id ≠ u)) [u] = [] := by simp
    rw [h3, h4, List.append_nil]

/-- C1: toggling a like twice restores the original membership; after any
positive number of successive toggles the acting user's id occurs at most
once in the likes list; a single toggle removes every occurrence of the id
when it is present and appends the id when it is absent. -/
theorem likeToggle_spec (l : List String) (u : String) :
    (∀ x, x ∈ likeToggle (likeToggle l u) u ↔ x ∈ l)
    ∧ (∀ n : Nat, (likeToggleIter u (n + 1) l).count u ≤ 1)
    ∧ (u ∈ l → (likeToggle l u).count u = 0
        ∧ ∀ x, x ≠ u → (likeToggle l u).count x = l.count x)
    ∧ (u ∉ l → likeToggle l u = l ++ [u]) := by
  refine ⟨fun x => likeToggle_twice_mem l u x,
    fun n => likeToggleIter_count_le_one u n l, fun h => ?_,
    fun h => likeToggle_of_not_mem h⟩
  rw [likeToggle_of_mem h]
  constructor
  · simp [List.count_eq_zero]
  · intro x hx
    rw [List.count_filter]
    simp [hx]

/-- Witness for C1 at concrete inputs. -/
theorem likeToggle_spec_witness :
    ("u" ∈ likeToggle (likeToggle ["a", "u"] "u") "u" ↔ "u" ∈ ["a", "u"])
    ∧ (likeToggleIter "u" 2 ["a", "u"]).count "u" ≤ 1
    ∧ ((likeToggle ["a", "u"] "u").count "u" = 0
        ∧ ∀ x, x ≠ "u" → (likeToggle ["a", "u"] "u").count x = ["a", "u"].count x)
    ∧ likeToggle ["a"] "u" = ["a"] ++ ["u"] :=
  ⟨(likeToggle_spec ["a", "u"] "u").1 "u",
   (likeToggle_spec ["a", "u"] "u").2.1 1,
   (likeToggle_spec ["a", "u"] "u").2.2.1 (by decide),
   (likeToggle_spec ["a"] "u").2.2.2 (by decide)⟩

/-! ## Theorems: session state (C2, C10) -/

/-- C2: checkAuthUser returns false and leaves user and isAuthenticated
untouched when getCurrentUser yields null or undefined; when getCurrentUser
yields a user document it returns true, sets isAuthenticated and all six
user fields; on every path the first setter call sets isLoading and the
final state has isLoading cleared; and a non-empty query result makes
getCurrentUser yield its first document. -/
theorem checkAuthUser_contract (s : AuthState) (res : GetCurrentUserResult) :
    (res = GetCurrentUserResult.nullR ∨ res = GetCurrentUserResult.undefinedR →
      (checkAuthUser res s).1 = false
      ∧ (checkAuthUserFinal res s).user = s.user
      ∧ (checkAuthUserFinal res s).isAuthenticated = s.isAuthenticated)
    ∧ (∀ d, res = GetCurrentUserResult.doc d →
      (checkAuthUser res s).1 = true
      ∧ (checkAuthUserFinal res s).isAuthenticated = true
      ∧ (checkAuthUserFinal res s).user.id = d.id
      ∧ (checkAuthUserFinal res s).user.name = d.name
      ∧ (checkAuthUserFinal res s).user.username = d.username
      ∧ (checkAuthUserFinal res s).user.email = d.email
      ∧ (checkAuthUserFinal res s).user.imageUrl = d.imageUrl
      ∧ (checkAuthUserFinal res s).user.bio = d.bio)
    ∧ (checkAuthUser res s).2.head? = some (setIsLoading s true)
    ∧ (checkAuthUserFinal res s).isLoading = false
    ∧ (∀ (a : Account) (d : UserDoc) (ds : List UserDoc),
        getCurrentUser (some a) (Except.ok (d :: ds))
          = GetCurrentUserResult.doc d) := by
  refine ⟨?_, ?_, ?_, ?_, fun a d ds => rfl⟩
  · rintro (rfl | rfl) <;> exact ⟨rfl, rfl, rfl⟩
  · rintro d rfl
    exact ⟨rfl, rfl, rfl, rfl, rfl, rfl, rfl, rfl⟩
  · cases res <;> rfl
  · cases res <;> rfl

/-- Witness for C2 at a concrete state, document and both result kinds. -/
theorem checkAuthUser_contract_witness :
    (checkAuthUser GetCurrentUserResult.nullR sampleState).1 = false
    ∧ (checkAuthUserFinal GetCurrentUserResult.nullR sampleState).user
        = sampleState.user
    ∧ (checkAuthUser (GetCurrentUserResult.doc sampleDoc) sampleState).1 = true
    ∧ (checkAuthUserFinal (GetCurrentUserResult.doc sampleDoc) sampleState).user.name
        = sampleDoc.name :=
  ⟨((checkAuthUser_contract sampleState GetCurrentUserResult.nullR).1
      (Or.inl rfl)).1,
   ((checkAuthUser_contract sampleState GetCurrentUserResult.nullR).1
      (Or.inl rfl)).2.1,
   ((checkAuthUser_contract sampleState (GetCurrentUserResult.doc sampleDoc)).2.1
      sampleDoc rfl).1,
   ((checkAuthUser_contract sampleState (GetCurrentUserResult.doc sampleDoc)).2.1
      sampleDoc rfl).2.2.2.1⟩

/-- C10: with a valid account but an empty documents list getCurrentUser
returns undefined (first element of an empty list), a value distinct from
the null its catch branch returns on failures; checkAuthUser reacts to
undefined exactly as to null: false, user and isAuthenticated unchanged. -/
theorem getCurrentUser_missingDoc_indistinguishable (a : Account)
    (s : AuthState) (listRes : Except Unit (List UserDoc)) :
    getCurrentUser (some a) (Except.ok []) = GetCurrentUserResult.undefinedR
    ∧ getCurrentUser none listRes = GetCurrentUserResult.nullR
    ∧ getCurrentUser (some a) (Except.error ()) = GetCurrentUserResult.nullR
    ∧ GetCurrentUserResult.undefinedR ≠ GetCurrentUserResult.nullR
    ∧ checkAuthUser GetCurrentUserResult.undefinedR s
        = checkAuthUser GetCurrentUserResult.nullR s
    ∧ (checkAuthUser GetCurrentUserResult.undefinedR s).1 = false
    ∧ (checkAuthUserFinal GetCurrentUserResult.undefinedR s).user = s.user
    ∧ (checkAuthUserFinal GetCurrentUserResult.undefinedR s).isAuthenticated
        = s.isAuthenticated :=
  ⟨rfl, rfl, rfl, by decide, rfl, rfl, rfl, rfl⟩

/-! ## Theorems: provider mount (C9) -/

/-- C9: the mount effect issues the sign-in redirect exactly when the
cookieFallback marker is absent or is the empty-list marker, and it calls
checkAuthUser in every case. -/
theorem authProviderMount_contract (cookieFallback : Option String) :
    (MountEffect.navigate "/sign-in" ∈ authProviderMount cookieFallback
      ↔ (cookieFallback = none ∨ cookieFallback = some "[]"))
    ∧ MountEffect.callCheckAuthUser ∈ authProviderMount cookieFallback := by
  by_cases h : cookieFallback = some "[]" ∨ cookieFallback = none
  · constructor
    · rw [authProviderMount, if_pos h]
      simp only [List.mem_cons, List.mem_singleton, MountEffect.navigate.injEq,
        true_or, iff_true, reduceCtorEq, or_false]
      tauto
    · rw [authProviderMount, if_pos h]
      simp
  · constructor
    · rw [authProviderMount, if_neg h]
      push_neg at h
      simp only [List.mem_singleton, reduceCtorEq, false_iff]
      tauto
    · rw [authProviderMount, if_neg h]
      simp

/-! ## Theorems: routing shell (C8) -/

/-- C8 counterexample: when the session store reports an authenticated
session, AuthLayout still renders the unauthenticated outlet instead of
redirecting to the home route, because its decision reads a local constant
false rather than the store. -/
theorem authLayout_ignores_store_cex :
    AuthLayout true ≠ RenderedView.navigateTo "/"
    ∧ AuthLayout true = RenderedView.authOutlet := by
  decide

/-- C8 amended: neither layout is driven by the store value. AuthLayout
tests a hardcoded local constant false, so it never redirects and always
renders the unauthenticated outlet; RootLayout renders the authenticated
layout unconditionally; both are constant in the store's flag. -/
theorem routing_layouts_constant (b b' : Bool) :
    AuthLayout b = RenderedView.authOutlet
    ∧ RootLayout b = RenderedView.rootOutlet
    ∧ AuthLayout b = AuthLayout b'
    ∧ RootLayout b = RootLayout b' :=
  ⟨rfl, rfl, rfl, rfl⟩

/-! ## Theorems: save toggle (C5) -/

/-- C5 counterexample: starting unsaved with a stale undefined
savedPostRecord throughout, two toggle calls leave the flag true, while the
parity of two toggles applied to false is false — the flag does not
alternate. -/
theorem saveToggle_parity_cex :
    runSaveToggles none "u" "p" 2 false = true
    ∧ toggleParity false 2 = false
    ∧ runSaveToggles none "u" "p" 2 false ≠ toggleParity false 2 := by
  decide

/-- C5 amended: while the savedPostRecord lookup observes a stale undefined
record, every handleSavePost call takes the create branch, writing true to
the flag and issuing a create — so after any positive number of calls the
flag is true irrespective of parity; the delete branch, with its false flag
and delete-by-record-id, fires only when a record is observed. -/
theorem saveToggle_stale_stuck_true (n : Nat) (init : Bool) (u p : String)
    (r : SavedRecord) :
    runSaveToggles none u p (n + 1) init = true
    ∧ handleSavePost none u p = (true, SaveAction.create u p)
    ∧ handleSavePost (some r) u p = (false, SaveAction.deleteSaved r.id) :=
  ⟨rfl, rfl, rfl⟩

/-! ## Theorems: remote service facade error channels (C3) -/

/-- C3 counterexample: getPostById called without a post id throws before
its try block, so the exception reaches the caller, and signUpAccount on a
failed account creation returns the caught error object as its result —
both contradict the claim that every facade operation returns undefined and
neither throws nor returns the error. -/
theorem facade_error_channels_cex :
    getPostById none (Except.ok (some { id := "p1" })) = FacadeResult.thrown
    ∧ signUpAccount (Except.error ()) (Except.ok sampleDoc)
        = SignUpResult.errorValue :=
  ⟨rfl, rfl⟩

/-- C3 amended: facade operations catch remote failures of every kind
(rejection or falsy result), log them and return undefined — with two
exceptions: signUpAccount returns the caught error object itself (never a
plain undefined, never an escaping exception), and getPostById lets its
missing-id validation error escape as an exception, while still mapping
remote failures to undefined. -/
theorem facade_error_channels (e : Unit) (acc : Account) (p : String)
    (hp : p ≠ "") (saveRes : Except Unit UserDoc)
    (getRes : Except Unit (Option PostDoc)) (f : FileDoc)
    (previewRes : Option String) (cRes : Except Unit (Option PostDoc))
    (i : Option String) (dRes : Except Unit Bool) (pageParam : Option Nat) :
    signUpAccount (Except.error e) saveRes = SignUpResult.errorValue
    ∧ signUpAccount (Except.ok acc) (Except.error e) = SignUpResult.errorValue
    ∧ (∀ u, signUpAccount (Except.error e) saveRes ≠ SignUpResult.value u)
    ∧ getPostById none getRes = FacadeResult.thrown
    ∧ getPostById (some "") getRes = FacadeResult.thrown
    ∧ getPostById (some p) (Except.error e) = FacadeResult.undefinedR
    ∧ getPostById (some p) (Except.ok none) = FacadeResult.undefinedR
    ∧ createPost none previewRes cRes = (none, [])
    ∧ (createPost (some f) previewRes (Except.error e)).1 = none
    ∧ deletePost none i dRes = (none, [])
    ∧ (deletePost (some p) (some p) (Except.error e)).1 = none
    ∧ (getInfinitePosts pageParam (Except.error e)).2 = none
    ∧ likePost (Except.error e) = none
    ∧ likePost (Except.ok none) = none
    ∧ savePost (Except.error e) = none
    ∧ deleteSavedPost (Except.error e) = none
    ∧ deleteSavedPost (Except.ok false) = none := by
  refine ⟨rfl, rfl, ?_, ?_, ?_, ?_, ?_, rfl, ?_, ?_, ?_,
    rfl, rfl, rfl, rfl, rfl, rfl⟩
  · intro u h
    cases h
  · cases getRes <;> rfl
  · cases getRes <;> rfl
  · simp [getPostById, jsFalsyStr, hp]
  · simp [getPostById, jsFalsyStr, hp]
  · cases previewRes <;> rfl
  · cases i <;> rfl
  · simp [deletePost, hp]

/-- Witness for C3 amended at concrete inputs. -/
theorem facade_error_channels_witness :
    signUpAccount (Except.error ()) (Except.ok sampleDoc)
        = SignUpResult.errorValue
    ∧ getPostById (some "p1") (Except.error ()) = FacadeResult.undefinedR :=
  ⟨(facade_error_channels () { id := "a1" } "p1" (by decide)
      (Except.ok sampleDoc) (Except.ok none) { id := "f1" } none
      (Except.ok none) none (Except.ok true) none).1,
   (facade_error_channels () { id := "a1" } "p1" (by decide)
      (Except.ok sampleDoc) (Except.ok none) { id := "f1" } none
      (Except.ok none) none (Except.ok true) none).2.2.2.2.2.1⟩

/-! ## Theorems: createPost compensating cleanup (C4) -/

/-- C4: when the upload succeeds but the preview-URL retrieval yields a
falsy value, createPost invokes deleteFile on exactly the uploaded file's
id and returns undefined, whatever the document-creation outcome would have
been. -/
theorem createPost_cleanup_on_preview_failure (f : FileDoc)
    (createRes : Except Unit (Option PostDoc)) :
    createPost (some f) none createRes = (none, [f.id]) :=
  rfl

/-! ## Theorems: infinite-posts pagination queries (C6) -/

/-- C6: with a falsy pageParam (undefined or 0) the query list is exactly
descending order on updatedAt plus a limit of 9 and holds no cursor term;
with a truthy pageParam the same two terms are kept and a cursorAfter term
with the stringified pageParam is appended, the only limit still being 9. -/
theorem getInfinitePosts_queries_contract (n : Nat) (hn : n ≠ 0)
    (listRes : Except Unit (Option PostList)) :
    (getInfinitePosts none listRes).1
        = [Query.orderDesc "$updatedAt", Query.limit 9]
    ∧ (getInfinitePosts (some 0) listRes).1
        = [Query.orderDesc "$updatedAt", Query.limit 9]
    ∧ (∀ c, Query.cursorAfter c ∉ (getInfinitePosts none listRes).1)
    ∧ (∀ c, Query.cursorAfter c ∉ (getInfinitePosts (some 0) listRes).1)
    ∧ (getInfinitePosts (some n) listRes).1
        = [Query.orderDesc "$updatedAt", Query.limit 9,
           Query.cursorAfter (toString n)]
    ∧ Query.cursorAfter (toString n) ∈ (getInfinitePosts (some n) listRes).1
    ∧ (∀ m, Query.limit m ∈ (getInfinitePosts (some n) listRes).1 → m = 9) := by
  have h5 : (getInfinitePosts (some n) listRes).1
      = [Query.orderDesc "$updatedAt", Query.limit 9,
         Query.cursorAfter (toString n)] := by
    simp [getInfinitePosts, getInfinitePostsQueries, hn]
  refine ⟨rfl, rfl, ?_, ?_, h5, ?_, ?_⟩
  · intro c
    simp [getInfinitePosts, getInfinitePostsQueries]
  · intro c
    simp [getInfinitePosts, getInfinitePostsQueries]
  · rw [h5]
    simp
  · intro m hm
    rw [h5] at hm
    simpa using hm

/-- Witness for C6 at pageParam 5. -/
theorem getInfinitePosts_queries_contract_witness :
    (getInfinitePosts (some 5) (Except.ok none)).1
        = [Query.orderDesc "$updatedAt", Query.limit 9,
           Query.cursorAfter (toString 5)]
    ∧ (getInfinitePosts none (Except.ok none)).1
        = [Query.orderDesc "$updatedAt", Query.limit 9] :=
  ⟨(getInfinitePosts_queries_contract 5 (by decide) (Except.ok none)).2.2.2.2.1,
   (getInfinitePosts_queries_contract 5 (by decide) (Except.ok none)).1⟩

/-! ## Theorems: deletePost guard and ordering (C7) -/

/-- C7: a missing postId or imageId makes deletePost return undefined with
no remote call issued; with both ids present and a successful document
deletion it issues the document deletion first and the file deletion
second, in that order. -/
theorem deletePost_contract (p i : String) (hp : p ≠ "") (hi : i ≠ "") :
    (∀ (im : Option String) (r : Except Unit Bool),
        deletePost none im r = (none, []))
    ∧ (∀ (pm : Option String) (r : Except Unit Bool),
        deletePost pm none r = (none, []))
    ∧ deletePost (some p) (some i) (Except.ok true)
        = (some "Ok",
           [RemoteCall.deleteDocumentReq p, RemoteCall.deleteFileReq i]) := by
  refine ⟨?_, ?_, ?_⟩
  · intro im r
    cases im <;> rfl
  · intro pm r
    cases pm <;> rfl
  · simp [deletePost, hp, hi]

/-- Witness for C7 at concrete ids. -/
theorem deletePost_contract_witness :
    deletePost none (some "f1") (Except.ok true) = (none, [])
    ∧ deletePost (some "p1") (some "f1") (Except.ok true)
        = (some "Ok",
           [RemoteCall.deleteDocumentReq "p1", RemoteCall.deleteFileReq "f1"]) :=
  ⟨(deletePost_contract "p1" "f1" (by decide) (by decide)).1
      (some "f1") (Except.ok true),
   (deletePost_contract "p1" "f1" (by decide) (by decide)).2.2⟩

end Snapgram
